import Mathlib

/-!
Verification development for the binary-expression-evaluation core of the
google-cloud-dotnet-debugger repository.

The definitions below are a shallow embedding of
`third_party/cloud-debug-java/binary_expression_evaluator.cc` (compile-phase
operator dispatch, the runtime "computer" functions it selects, and the
`Evaluate` driver with its short-circuit logic), of the `DbgString::GetString`
contract from `dbg_string.h`, and of the evaluation-coordination protocol
declared by `i_evalcoordinator.h`.

Conventions of the embedding:
- `HRESULT` values are plain integers; a result fails exactly when it is
  negative (`FAILED`).  The concrete constants mirror the Windows values.
- Machine integers are `Int`/`Nat` with explicit reduction modulo `2^w` at
  the points where the C++ types truncate; signed values are kept in the
  two's-complement range `[-2^(w-1), 2^(w-1))`.  Signed `+`, `-`, `*` and
  `<<` are modelled as two's-complement wraparound.
- Floating-point values are modelled symbolically: a finite rational, the two
  infinities, or NaN.  The only float behaviour the development relies on is
  the exact IEEE treatment of a zero divisor; finite/finite arithmetic is
  exact rational arithmetic.
- Fallible operations return `Except Int·` carrying the failing `HRESULT`.
-/

/-- `S_OK`: the success `HRESULT` (zero). -/
def S_OK : Int := 0

/-- `E_FAIL`: generic failure `HRESULT` (`0x80004005` as a signed 32-bit value). -/
def E_FAIL : Int := -2147467259

/-- `E_NOTIMPL`: not-implemented `HRESULT` (`0x80004001` as a signed 32-bit value). -/
def E_NOTIMPL : Int := -2147467263

/-- `E_INVALIDARG`: invalid-argument `HRESULT` (`0x80070057` as a signed 32-bit value). -/
def E_INVALIDARG : Int := -2147024809

/-- `FAILED(hr)`: an `HRESULT` denotes failure exactly when it is negative. -/
def FAILED (hr : Int) : Bool := hr < 0

/-- The CLR element kinds (`CorElementType`) relevant to the evaluator. -/
inductive CorElementType
  | Boolean
  | Char
  | I1
  | U1
  | I2
  | U2
  | I4
  | U4
  | I8
  | U8
  | R4
  | R8
  | Str
  | Object
  deriving DecidableEq, Repr

/-- The binary operator tags of `BinaryCSharpExpression::Type`. -/
inductive BinOp
  | add
  | sub
  | mul
  | div
  | mod
  | eq
  | ne
  | le
  | ge
  | lt
  | gt
  | conditional_and
  | conditional_or
  | bitwise_and
  | bitwise_or
  | bitwise_xor
  | shl
  | shr_s
  | shr_u
  deriving DecidableEq, Repr

/-- Modelled from the spec: `TypeCompilerHelper::IsNumericalType`
(`compiler_helpers.cc` is not among the excerpted sources).  Per §4.1 the
numeric kinds are the integral kinds together with `float`/`double`. -/
def IsNumericalType : CorElementType → Bool
  | .Char | .I1 | .U1 | .I2 | .U2 | .I4 | .U4 | .I8 | .U8 | .R4 | .R8 => true
  | _ => false

/-- Modelled from the spec: `TypeCompilerHelper::IsIntegralType`
(`compiler_helpers.cc` is not among the excerpted sources).  The integral
kinds are the numeric kinds other than `float`/`double`. -/
def IsIntegralType : CorElementType → Bool
  | .Char | .I1 | .U1 | .I2 | .U2 | .I4 | .U4 | .I8 | .U8 => true
  | _ => false

/-- Modelled from the spec: signed integral classification used by the
`ulong` row of the promotion table (mismatched signed/unsigned 64-bit
combinations are a type mismatch). -/
def IsSignedIntegralType : CorElementType → Bool
  | .I1 | .I2 | .I4 | .I8 => true
  | _ => false

/-- Modelled from the spec: `NumericCompilerHelper::IsNumericallyPromotedToInt`
(`compiler_helpers.cc` is not among the excerpted sources).  Per §4.6 the
kinds narrower than `int` widen to `int32`. -/
def IsNumericallyPromotedToInt : CorElementType → Bool
  | .Char | .I1 | .U1 | .I2 | .U2 => true
  | _ => false

/-- Modelled from the spec: `NumericCompilerHelper::BinaryNumericalPromotion`
(`compiler_helpers.cc` is not among the excerpted sources).  §4.1 gives the
precedence: double, float, ulong (signed partner is a mismatch), long, uint,
else int; non-numeric operands never promote. -/
def BinaryNumericalPromotion (a b : CorElementType) : Option CorElementType :=
  if ¬(IsNumericalType a ∧ IsNumericalType b) then none
  else if a = .R8 ∨ b = .R8 then some .R8
  else if a = .R4 ∨ b = .R4 then some .R4
  else if a = .U8 ∨ b = .U8 then
    if IsSignedIntegralType a ∨ IsSignedIntegralType b then none else some .U8
  else if a = .I8 ∨ b = .I8 then some .I8
  else if a = .U4 ∨ b = .U4 then some .U4
  else some .I4

example : BinaryNumericalPromotion .I4 .I8 = some .I8 := by decide
example : BinaryNumericalPromotion .U4 .I8 = some .I8 := by decide
example : BinaryNumericalPromotion .U4 .U8 = some .U8 := by decide
example : BinaryNumericalPromotion .I4 .U8 = none := by decide

/-- Symbolic model of an IEEE floating-point value: a finite rational, an
infinity, or NaN.  Finite/finite arithmetic is exact rational arithmetic;
the zero-divisor and special-value cases follow IEEE-754 (the model has no
negative zero). -/
inductive FloatVal
  | finite (q : ℚ)
  | posInf
  | negInf
  | nan
  deriving DecidableEq

/-- Floating-point negation on the symbolic model. -/
def FloatVal.neg : FloatVal → FloatVal
  | .finite q => .finite (-q)
  | .posInf => .negInf
  | .negInf => .posInf
  | .nan => .nan

/-- Floating-point addition on the symbolic model. -/
def FloatVal.add : FloatVal → FloatVal → FloatVal
  | .finite x, .finite y => .finite (x + y)
  | .finite _, .posInf => .posInf
  | .finite _, .negInf => .negInf
  | .posInf, .finite _ => .posInf
  | .negInf, .finite _ => .negInf
  | .posInf, .posInf => .posInf
  | .negInf, .negInf => .negInf
  | _, _ => .nan

/-- Floating-point subtraction on the symbolic model. -/
def FloatVal.sub (x y : FloatVal) : FloatVal := FloatVal.add x (FloatVal.neg y)

/-- Floating-point multiplication on the symbolic model. -/
def FloatVal.mul : FloatVal → FloatVal → FloatVal
  | .finite x, .finite y => .finite (x * y)
  | .finite x, .posInf => if x = 0 then .nan else if 0 < x then .posInf else .negInf
  | .finite x, .negInf => if x = 0 then .nan else if 0 < x then .negInf else .posInf
  | .posInf, .finite y => if y = 0 then .nan else if 0 < y then .posInf else .negInf
  | .negInf, .finite y => if y = 0 then .nan else if 0 < y then .negInf else .posInf
  | .posInf, .posInf => .posInf
  | .negInf, .negInf => .posInf
  | .posInf, .negInf => .negInf
  | .negInf, .posInf => .negInf
  | _, _ => .nan

/-- Floating-point division on the symbolic model.  Division of a nonzero
finite value by zero yields the correctly signed infinity and `0/0` yields
NaN, exactly as in IEEE-754; it is never an error. -/
def FloatVal.div : FloatVal → FloatVal → FloatVal
  | .finite x, .finite y =>
      if y = 0 then (if x = 0 then .nan else if 0 < x then .posInf else .negInf)
      else .finite (x / y)
  | .finite _, .posInf => .finite 0
  | .finite _, .negInf => .finite 0
  | .posInf, .finite y => if 0 ≤ y then .posInf else .negInf
  | .negInf, .finite y => if 0 ≤ y then .negInf else .posInf
  | _, _ => .nan

/-- Truncation toward zero on rationals (the rounding used by `fmod`). -/
def ratTrunc (q : ℚ) : Int := if 0 ≤ q then ⌊q⌋ else ⌈q⌉

/-- `std::fmod` on the symbolic model: `x - trunc(x/y) * y` for finite
operands with `y ≠ 0`; NaN for a zero or NaN divisor or infinite dividend;
`x` unchanged for an infinite divisor. -/
def FloatVal.fmod : FloatVal → FloatVal → FloatVal
  | .finite x, .finite y =>
      if y = 0 then .nan else .finite (x - (ratTrunc (x / y) : ℚ) * y)
  | .finite x, .posInf => .finite x
  | .finite x, .negInf => .finite x
  | _, _ => .nan

/-- IEEE equality on the symbolic model: NaN compares unequal to everything. -/
def FloatVal.feq : FloatVal → FloatVal → Bool
  | .finite x, .finite y => x == y
  | .posInf, .posInf => true
  | .negInf, .negInf => true
  | _, _ => false

/-- IEEE strict less-than on the symbolic model: any comparison with NaN is
false. -/
def FloatVal.flt : FloatVal → FloatVal → Bool
  | .finite x, .finite y => x < y
  | .finite _, .posInf => true
  | .negInf, .finite _ => true
  | .negInf, .posInf => true
  | _, _ => false

/-- IEEE less-than-or-equal on the symbolic model. -/
def FloatVal.fle (x y : FloatVal) : Bool := FloatVal.flt x y || FloatVal.feq x y

/-- A runtime value (`DbgObject`): a primitive scalar, a string with a
reference address and byte content, or a composite reference with an
address. -/
inductive Value
  | vBool (b : Bool)
  | vI4 (v : Int)
  | vU4 (v : Nat)
  | vI8 (v : Int)
  | vU8 (v : Nat)
  | vR4 (v : FloatVal)
  | vR8 (v : FloatVal)
  | vStr (addr : Nat) (content : List Nat)
  | vObject (addr : Nat)
  deriving DecidableEq

/-- `INT_MIN`: the smallest signed 32-bit value. -/
def INT32_MIN : Int := -2147483648

/-- `LONG_MIN`: the smallest signed 64-bit value. -/
def INT64_MIN : Int := -9223372036854775808

/-- Reduce an integer into the two's-complement range of `int32_t`. -/
def wrap32 (x : Int) : Int := (x + 2147483648) % 4294967296 - 2147483648

/-- Reduce an integer into the two's-complement range of `int64_t`. -/
def wrap64 (x : Int) : Int :=
  (x + 9223372036854775808) % 18446744073709551616 - 9223372036854775808

/-- Reduce an integer into the range of `uint32_t`. -/
def wrapU32 (x : Int) : Nat := (x % 4294967296).toNat

/-- Reduce an integer into the range of `uint64_t`. -/
def wrapU64 (x : Int) : Nat := (x % 18446744073709551616).toNat

/-- Modelled from the spec: `NumericCompilerHelper::ExtractPrimitiveValue<bool>`
(`compiler_helpers.cc` is not among the excerpted sources); §6's
`ExtractPrimitive<T>() -> T | Error` succeeds exactly when the object holds
the requested primitive kind. -/
def ExtractBool : Value → Except Int Bool
  | .vBool b => .ok b
  | _ => .error E_FAIL

/-- Modelled from the spec: `ExtractPrimitiveValue<int32_t>`; see `ExtractBool`. -/
def ExtractI4 : Value → Except Int Int
  | .vI4 v => .ok v
  | _ => .error E_FAIL

/-- Modelled from the spec: `ExtractPrimitiveValue<uint32_t>`; see `ExtractBool`. -/
def ExtractU4 : Value → Except Int Nat
  | .vU4 v => .ok v
  | _ => .error E_FAIL

/-- Modelled from the spec: `ExtractPrimitiveValue<int64_t>`; see `ExtractBool`. -/
def ExtractI8 : Value → Except Int Int
  | .vI8 v => .ok v
  | _ => .error E_FAIL

/-- Modelled from the spec: `ExtractPrimitiveValue<uint64_t>`; see `ExtractBool`. -/
def ExtractU8 : Value → Except Int Nat
  | .vU8 v => .ok v
  | _ => .error E_FAIL

/-- Modelled from the spec: `ExtractPrimitiveValue<float_t>`; see `ExtractBool`. -/
def ExtractR4 : Value → Except Int FloatVal
  | .vR4 v => .ok v
  | _ => .error E_FAIL

/-- Modelled from the spec: `ExtractPrimitiveValue<double_t>`; see `ExtractBool`. -/
def ExtractR8 : Value → Except Int FloatVal
  | .vR8 v => .ok v
  | _ => .error E_FAIL

/-- The numeric working kinds a computer can be instantiated at
(the `T` of the C++ templates). -/
inductive NumKind
  | i4
  | u4
  | i8
  | u8
  | r4
  | r8
  deriving DecidableEq, Repr

/-- The integral working kinds (template instantiations of the bitwise and
shift computers). -/
inductive IntKind
  | i4
  | u4
  | i8
  | u8
  deriving DecidableEq, Repr

/-- `IsDivisionByZero<T>` for a signed integral `T`: the divisor is zero.
(The template returns `false` for floating-point `T`; see
`IsDivisionByZeroFloat`.) -/
def IsDivisionByZeroInt (divisor : Int) : Bool := divisor == 0

/-- `IsDivisionByZero<T>` for an unsigned integral `T`: the divisor is zero. -/
def IsDivisionByZeroNat (divisor : Nat) : Bool := divisor == 0

/-- `IsDivisionByZero<T>` for floating-point `T`: never fires
(`std::is_floating_point` branch of the template). -/
def IsDivisionByZeroFloat (_ : FloatVal) : Bool := false

/-- `IsDivisionOverflow(int32_t, int32_t)`: the dividend is `INT_MIN` and the
divisor is `-1`. -/
def IsDivisionOverflowI4 (value1 value2 : Int) : Bool :=
  value1 == INT32_MIN && value2 == -1

/-- `IsDivisionOverflow(int64_t, int64_t)`: the dividend is `LONG_MIN` and the
divisor is `-1`. -/
def IsDivisionOverflowI8 (value1 value2 : Int) : Bool :=
  value1 == INT64_MIN && value2 == -1

/-- `IsDivisionOverflow<T>` for an unsigned `T`: never fires
(`std::is_unsigned` branch of the template). -/
def IsDivisionOverflowNat (_ _ : Nat) : Bool := false

/-- `IsDivisionOverflow` for floating-point operands: never fires
(dedicated overloads returning `false`). -/
def IsDivisionOverflowFloat (_ _ : FloatVal) : Bool := false

/-- `ComputeModulo` for `int32_t`/`int64_t`: the C++ `%`, a truncated
remainder. -/
def ComputeModuloInt (x y : Int) : Int := Int.tmod x y

/-- `ComputeModulo` for `uint32_t`/`uint64_t`: the C++ `%` on `Nat`. -/
def ComputeModuloNat (x y : Nat) : Nat := x % y

/-- `ComputeModulo` for `float_t`/`double_t`: `std::fmod`. -/
def ComputeModuloFloat (x y : FloatVal) : FloatVal := FloatVal.fmod x y

/-- `BinaryExpressionEvaluator::ArithmeticComputer<T>`: extracts both operands
at the working kind, applies the division checks for `div`/`mod`, and
performs the arithmetic of `T`. -/
def ArithmeticComputer (ty : BinOp) : NumKind → Value → Value → Except Int Value
  | .i4, arg1, arg2 => do
      let value1 ← ExtractI4 arg1
      let value2 ← ExtractI4 arg2
      match ty with
      | .add => .ok (.vI4 (wrap32 (value1 + value2)))
      | .sub => .ok (.vI4 (wrap32 (value1 - value2)))
      | .mul => .ok (.vI4 (wrap32 (value1 * value2)))
      | .mod | .div =>
          if IsDivisionByZeroInt value2 then .error E_INVALIDARG
          else if IsDivisionOverflowI4 value1 value2 then .error E_INVALIDARG
          else if ty = .div then .ok (.vI4 (Int.tdiv value1 value2))
          else .ok (.vI4 (ComputeModuloInt value1 value2))
      | _ => .error E_NOTIMPL
  | .u4, arg1, arg2 => do
      let value1 ← ExtractU4 arg1
      let value2 ← ExtractU4 arg2
      match ty with
      | .add => .ok (.vU4 ((value1 + value2) % 4294967296))
      | .sub => .ok (.vU4 (wrapU32 ((value1 : Int) - (value2 : Int))))
      | .mul => .ok (.vU4 ((value1 * value2) % 4294967296))
      | .mod | .div =>
          if IsDivisionByZeroNat value2 then .error E_INVALIDARG
          else if IsDivisionOverflowNat value1 value2 then .error E_INVALIDARG
          else if ty = .div then .ok (.vU4 (value1 / value2))
          else .ok (.vU4 (ComputeModuloNat value1 value2))
      | _ => .error E_NOTIMPL
  | .i8, arg1, arg2 => do
      let value1 ← ExtractI8 arg1
      let value2 ← ExtractI8 arg2
      match ty with
      | .add => .ok (.vI8 (wrap64 (value1 + value2)))
      | .sub => .ok (.vI8 (wrap64 (value1 - value2)))
      | .mul => .ok (.vI8 (wrap64 (value1 * value2)))
      | .mod | .div =>
          if IsDivisionByZeroInt value2 then .error E_INVALIDARG
          else if IsDivisionOverflowI8 value1 value2 then .error E_INVALIDARG
          else if ty = .div then .ok (.vI8 (Int.tdiv value1 value2))
          else .ok (.vI8 (ComputeModuloInt value1 value2))
      | _ => .error E_NOTIMPL
  | .u8, arg1, arg2 => do
      let value1 ← ExtractU8 arg1
      let value2 ← ExtractU8 arg2
      match ty with
      | .add => .ok (.vU8 ((value1 + value2) % 18446744073709551616))
      | .sub => .ok (.vU8 (wrapU64 ((value1 : Int) - (value2 : Int))))
      | .mul => .ok (.vU8 ((value1 * value2) % 18446744073709551616))
      | .mod | .div =>
          if IsDivisionByZeroNat value2 then .error E_INVALIDARG
          else if IsDivisionOverflowNat value1 value2 then .error E_INVALIDARG
          else if ty = .div then .ok (.vU8 (value1 / value2))
          else .ok (.vU8 (ComputeModuloNat value1 value2))
      | _ => .error E_NOTIMPL
  | .r4, arg1, arg2 => do
      let value1 ← ExtractR4 arg1
      let value2 ← ExtractR4 arg2
      match ty with
      | .add => .ok (.vR4 (FloatVal.add value1 value2))
      | .sub => .ok (.vR4 (FloatVal.sub value1 value2))
      | .mul => .ok (.vR4 (FloatVal.mul value1 value2))
      | .mod | .div =>
          if IsDivisionByZeroFloat value2 then .error E_INVALIDARG
          else if IsDivisionOverflowFloat value1 value2 then .error E_INVALIDARG
          else if ty = .div then .ok (.vR4 (FloatVal.div value1 value2))
          else .ok (.vR4 (ComputeModuloFloat value1 value2))
      | _ => .error E_NOTIMPL
  | .r8, arg1, arg2 => do
      let value1 ← ExtractR8 arg1
      let value2 ← ExtractR8 arg2
      match ty with
      | .add => .ok (.vR8 (FloatVal.add value1 value2))
      | .sub => .ok (.vR8 (FloatVal.sub value1 value2))
      | .mul => .ok (.vR8 (FloatVal.mul value1 value2))
      | .mod | .div =>
          if IsDivisionByZeroFloat value2 then .error E_INVALIDARG
          else if IsDivisionOverflowFloat value1 value2 then .error E_INVALIDARG
          else if ty = .div then .ok (.vR8 (FloatVal.div value1 value2))
          else .ok (.vR8 (ComputeModuloFloat value1 value2))
      | _ => .error E_NOTIMPL

/-- View a signed 32-bit value as its two's-complement bit pattern. -/
def toTwos32 (x : Int) : Nat := (x % 4294967296).toNat

/-- Read a 32-bit pattern back as a signed value. -/
def ofTwos32 (n : Nat) : Int :=
  if n < 2147483648 then (n : Int) else (n : Int) - 4294967296

/-- View a signed 64-bit value as its two's-complement bit pattern. -/
def toTwos64 (x : Int) : Nat := (x % 18446744073709551616).toNat

/-- Read a 64-bit pattern back as a signed value. -/
def ofTwos64 (n : Nat) : Int :=
  if n < 9223372036854775808 then (n : Int) else (n : Int) - 18446744073709551616

/-- `BinaryExpressionEvaluator::BitwiseComputer<T>`: extracts both operands at
the working kind and applies `&`, `|` or `^` on the two's-complement bits. -/
def BitwiseComputer (ty : BinOp) : IntKind → Value → Value → Except Int Value
  | .i4, arg1, arg2 => do
      let value1 ← ExtractI4 arg1
      let value2 ← ExtractI4 arg2
      match ty with
      | .bitwise_and => .ok (.vI4 (ofTwos32 (Nat.land (toTwos32 value1) (toTwos32 value2))))
      | .bitwise_or => .ok (.vI4 (ofTwos32 (Nat.lor (toTwos32 value1) (toTwos32 value2))))
      | .bitwise_xor => .ok (.vI4 (ofTwos32 (Nat.xor (toTwos32 value1) (toTwos32 value2))))
      | _ => .error E_NOTIMPL
  | .u4, arg1, arg2 => do
      let value1 ← ExtractU4 arg1
      let value2 ← ExtractU4 arg2
      match ty with
      | .bitwise_and => .ok (.vU4 (Nat.land value1 value2))
      | .bitwise_or => .ok (.vU4 (Nat.lor value1 value2))
      | .bitwise_xor => .ok (.vU4 (Nat.xor value1 value2))
      | _ => .error E_NOTIMPL
  | .i8, arg1, arg2 => do
      let value1 ← ExtractI8 arg1
      let value2 ← ExtractI8 arg2
      match ty with
      | .bitwise_and => .ok (.vI8 (ofTwos64 (Nat.land (toTwos64 value1) (toTwos64 value2))))
      | .bitwise_or => .ok (.vI8 (ofTwos64 (Nat.lor (toTwos64 value1) (toTwos64 value2))))
      | .bitwise_xor => .ok (.vI8 (ofTwos64 (Nat.xor (toTwos64 value1) (toTwos64 value2))))
      | _ => .error E_NOTIMPL
  | .u8, arg1, arg2 => do
      let value1 ← ExtractU8 arg1
      let value2 ← ExtractU8 arg2
      match ty with
      | .bitwise_and => .ok (.vU8 (Nat.land value1 value2))
      | .bitwise_or => .ok (.vU8 (Nat.lor value1 value2))
      | .bitwise_xor => .ok (.vU8 (Nat.xor value1 value2))
      | _ => .error E_NOTIMPL

/-- `BinaryExpressionEvaluator::ShiftComputer<T, Bitmask>`: extracts the left
operand at the working kind and the count as `int32_t`, masks the count with
`Bitmask` (`value2 &= Bitmask`; on two's complement, `& 0x1F` is reduction
modulo `0x20` and `& 0x3F` modulo `0x40`), then shifts.  `shr_s` and `shr_u`
share the single `>>` branch — arithmetic for a signed working kind, logical
for an unsigned one. -/
def ShiftComputer (ty : BinOp) (k : IntKind) (mask : Nat) (arg1 arg2 : Value) :
    Except Int Value :=
  match k with
  | .i4 => do
      let value1 ← ExtractI4 arg1
      let value2 ← ExtractI4 arg2
      let n : Nat := (value2 % ((mask : Int) + 1)).toNat
      match ty with
      | .shl => .ok (.vI4 (wrap32 (value1 * 2 ^ n)))
      | .shr_s | .shr_u => .ok (.vI4 (Int.fdiv value1 (2 ^ n)))
      | _ => .error E_NOTIMPL
  | .u4 => do
      let value1 ← ExtractU4 arg1
      let value2 ← ExtractI4 arg2
      let n : Nat := (value2 % ((mask : Int) + 1)).toNat
      match ty with
      | .shl => .ok (.vU4 ((value1 * 2 ^ n) % 4294967296))
      | .shr_s | .shr_u => .ok (.vU4 (value1 / 2 ^ n))
      | _ => .error E_NOTIMPL
  | .i8 => do
      let value1 ← ExtractI8 arg1
      let value2 ← ExtractI4 arg2
      let n : Nat := (value2 % ((mask : Int) + 1)).toNat
      match ty with
      | .shl => .ok (.vI8 (wrap64 (value1 * 2 ^ n)))
      | .shr_s | .shr_u => .ok (.vI8 (Int.fdiv value1 (2 ^ n)))
      | _ => .error E_NOTIMPL
  | .u8 => do
      let value1 ← ExtractU8 arg1
      let value2 ← ExtractI4 arg2
      let n : Nat := (value2 % ((mask : Int) + 1)).toNat
      match ty with
      | .shl => .ok (.vU8 ((value1 * 2 ^ n) % 18446744073709551616))
      | .shr_s | .shr_u => .ok (.vU8 (value1 / 2 ^ n))
      | _ => .error E_NOTIMPL

/-- Modelled from the spec: `DbgObject::GetAddress` (`dbg_object.h` is not
among the excerpted sources); §2 gives reference values an identity/address.
Primitive scalars carry no reference address (zero here). -/
def GetAddress : Value → Nat
  | .vStr addr _ => addr
  | .vObject addr => addr
  | _ => 0

/-- `DbgString::GetString` per `dbg_string.h`: yields the backing string
content and fails if the object is not a string. -/
def GetString : Value → Except Int (List Nat)
  | .vStr _ content => .ok content
  | _ => .error E_FAIL

/-- `BinaryExpressionEvaluator::ConditionalObjectComputer`: compares the two
operands' addresses.  Note: the source returns `has_same_address` for both
`eq` and `ne` — no inversion on the `ne` branch. -/
def ConditionalObjectComputer (ty : BinOp) (arg1 arg2 : Value) : Except Int Value :=
  let has_same_address := GetAddress arg1 == GetAddress arg2
  match ty with
  | .eq => .ok (.vBool has_same_address)
  | .ne => .ok (.vBool has_same_address)
  | _ => .error E_NOTIMPL

/-- `BinaryExpressionEvaluator::ConditionalStringComputer`: extracts both
strings and compares their content (`std::string::compare == 0`). -/
def ConditionalStringComputer (ty : BinOp) (arg1 arg2 : Value) : Except Int Value := do
  let first_string ← GetString arg1
  let second_string ← GetString arg2
  let is_equal := first_string == second_string
  match ty with
  | .eq => .ok (.vBool is_equal)
  | .ne => .ok (.vBool !is_equal)
  | _ => .error E_NOTIMPL

/-- `BinaryExpressionEvaluator::ConditionalBooleanComputer`: extracts both
booleans and applies the compiled operator. -/
def ConditionalBooleanComputer (ty : BinOp) (arg1 arg2 : Value) : Except Int Value := do
  let boolean1 ← ExtractBool arg1
  let boolean2 ← ExtractBool arg2
  match ty with
  | .conditional_and | .bitwise_and => .ok (.vBool (boolean1 && boolean2))
  | .conditional_or | .bitwise_or => .ok (.vBool (boolean1 || boolean2))
  | .eq => .ok (.vBool (boolean1 == boolean2))
  | .ne | .bitwise_xor => .ok (.vBool (boolean1 != boolean2))
  | _ => .error E_NOTIMPL

/-- `BinaryExpressionEvaluator::NumericalComparisonComputer<T>`: extracts both
operands at the working kind and applies the relational operator of `T`. -/
def NumericalComparisonComputer (ty : BinOp) : NumKind → Value → Value → Except Int Value
  | .i4, arg1, arg2 => do
      let value1 ← ExtractI4 arg1
      let value2 ← ExtractI4 arg2
      match ty with
      | .eq => .ok (.vBool (value1 == value2))
      | .ne | .bitwise_xor => .ok (.vBool (value1 != value2))
      | .le => .ok (.vBool (value1 ≤ value2))
      | .ge => .ok (.vBool (value2 ≤ value1))
      | .lt => .ok (.vBool (value1 < value2))
      | .gt => .ok (.vBool (value2 < value1))
      | _ => .error E_NOTIMPL
  | .u4, arg1, arg2 => do
      let value1 ← ExtractU4 arg1
      let value2 ← ExtractU4 arg2
      match ty with
      | .eq => .ok (.vBool (value1 == value2))
      | .ne | .bitwise_xor => .ok (.vBool (value1 != value2))
      | .le => .ok (.vBool (value1 ≤ value2))
      | .ge => .ok (.vBool (value2 ≤ value1))
      | .lt => .ok (.vBool (value1 < value2))
      | .gt => .ok (.vBool (value2 < value1))
      | _ => .error E_NOTIMPL
  | .i8, arg1, arg2 => do
      let value1 ← ExtractI8 arg1
      let value2 ← ExtractI8 arg2
      match ty with
      | .eq => .ok (.vBool (value1 == value2))
      | .ne | .bitwise_xor => .ok (.vBool (value1 != value2))
      | .le => .ok (.vBool (value1 ≤ value2))
      | .ge => .ok (.vBool (value2 ≤ value1))
      | .lt => .ok (.vBool (value1 < value2))
      | .gt => .ok (.vBool (value2 < value1))
      | _ => .error E_NOTIMPL
  | .u8, arg1, arg2 => do
      let value1 ← ExtractU8 arg1
      let value2 ← ExtractU8 arg2
      match ty with
      | .eq => .ok (.vBool (value1 == value2))
      | .ne | .bitwise_xor => .ok (.vBool (value1 != value2))
      | .le => .ok (.vBool (value1 ≤ value2))
      | .ge => .ok (.vBool (value2 ≤ value1))
      | .lt => .ok (.vBool (value1 < value2))
      | .gt => .ok (.vBool (value2 < value1))
      | _ => .error E_NOTIMPL
  | .r4, arg1, arg2 => do
      let value1 ← ExtractR4 arg1
      let value2 ← ExtractR4 arg2
      match ty with
      | .eq => .ok (.vBool (FloatVal.feq value1 value2))
      | .ne | .bitwise_xor => .ok (.vBool (!FloatVal.feq value1 value2))
      | .le => .ok (.vBool (FloatVal.fle value1 value2))
      | .ge => .ok (.vBool (FloatVal.fle value2 value1))
      | .lt => .ok (.vBool (FloatVal.flt value1 value2))
      | .gt => .ok (.vBool (FloatVal.flt value2 value1))
      | _ => .error E_NOTIMPL
  | .r8, arg1, arg2 => do
      let value1 ← ExtractR8 arg1
      let value2 ← ExtractR8 arg2
      match ty with
      | .eq => .ok (.vBool (FloatVal.feq value1 value2))
      | .ne | .bitwise_xor => .ok (.vBool (!FloatVal.feq value1 value2))
      | .le => .ok (.vBool (FloatVal.fle value1 value2))
      | .ge => .ok (.vBool (FloatVal.fle value2 value1))
      | .lt => .ok (.vBool (FloatVal.flt value1 value2))
      | .gt => .ok (.vBool (FloatVal.flt value2 value1))
      | _ => .error E_NOTIMPL

/-- The runtime operation a `Compile` call selects and caches in `computer_`
(the member-function-pointer dispatch of the source). -/
inductive Computer
  | arith (k : NumKind)
  | bitwise (k : IntKind)
  | shift (k : IntKind) (mask : Nat)
  | condObject
  | condString
  | condBoolean
  | numCompare (k : NumKind)
  deriving DecidableEq, Repr

/-- Dispatch of `(this->*computer_)(arg1, arg2, result)`. -/
def ApplyComputer (ty : BinOp) : Computer → Value → Value → Except Int Value
  | .arith k, arg1, arg2 => ArithmeticComputer ty k arg1 arg2
  | .bitwise k, arg1, arg2 => BitwiseComputer ty k arg1 arg2
  | .shift k mask, arg1, arg2 => ShiftComputer ty k mask arg1 arg2
  | .condObject, arg1, arg2 => ConditionalObjectComputer ty arg1 arg2
  | .condString, arg1, arg2 => ConditionalStringComputer ty arg1 arg2
  | .condBoolean, arg1, arg2 => ConditionalBooleanComputer ty arg1 arg2
  | .numCompare k, arg1, arg2 => NumericalComparisonComputer ty k arg1 arg2

/-- `BinaryExpressionEvaluator::CompileArithmetical`: promotes the two operand
kinds and selects `ArithmeticComputer` at the promoted kind.  Returns the
`HRESULT` and the selected operation (`none` when no operation was bound). -/
def CompileArithmetical (t1 t2 : CorElementType) : Int × Option Computer :=
  match BinaryNumericalPromotion t1 t2 with
  | none => (E_FAIL, none)
  | some result =>
    match result with
    | .I4 => (S_OK, some (.arith .i4))
    | .U4 => (S_OK, some (.arith .u4))
    | .I8 => (S_OK, some (.arith .i8))
    | .U8 => (S_OK, some (.arith .u8))
    | .R4 => (S_OK, some (.arith .r4))
    | .R8 => (S_OK, some (.arith .r8))
    | _ => (E_FAIL, none)

/-- `BinaryExpressionEvaluator::CompileBooleanConditional`: both operand kinds
must be boolean; selects `ConditionalBooleanComputer`. -/
def CompileBooleanConditional (t1 t2 : CorElementType) : Int × Option Computer :=
  if t1 = .Boolean ∧ t2 = .Boolean then (S_OK, some .condBoolean)
  else (E_FAIL, none)

/-- `BinaryExpressionEvaluator::CompileRelational`.  Note: when both operands
are numerical, the source promotes `signature1` with `signature1` — the
second operand's kind is not consulted. -/
def CompileRelational (ty : BinOp) (t1 t2 : CorElementType) : Int × Option Computer :=
  if IsNumericalType t1 ∧ IsNumericalType t2 then
    match BinaryNumericalPromotion t1 t1 with
    | none => (E_FAIL, none)
    | some result =>
      match result with
      | .I4 => (S_OK, some (.numCompare .i4))
      | .U4 => (S_OK, some (.numCompare .u4))
      | .I8 => (S_OK, some (.numCompare .i8))
      | .U8 => (S_OK, some (.numCompare .u8))
      | .R4 => (S_OK, some (.numCompare .r4))
      | .R8 => (S_OK, some (.numCompare .r8))
      | _ => (E_FAIL, none)
  else if ty ≠ .eq ∧ ty ≠ .ne then (E_NOTIMPL, none)
  else if t1 = .Boolean ∧ t2 = .Boolean then CompileBooleanConditional t1 t2
  else if t1 = .Str ∧ t2 = .Str then (S_OK, some .condString)
  else if ¬IsNumericalType t1 ∧ ¬IsNumericalType t2 then (S_OK, some .condObject)
  else (E_FAIL, none)

/-- `BinaryExpressionEvaluator::CompileLogical`: integral operands promote and
select `BitwiseComputer`; otherwise fall back to the boolean-conditional
compilation. -/
def CompileLogical (t1 t2 : CorElementType) : Int × Option Computer :=
  if IsIntegralType t1 ∧ IsIntegralType t2 then
    match BinaryNumericalPromotion t1 t2 with
    | none => (E_FAIL, none)
    | some result =>
      match result with
      | .I4 => (S_OK, some (.bitwise .i4))
      | .U4 => (S_OK, some (.bitwise .u4))
      | .I8 => (S_OK, some (.bitwise .i8))
      | .U8 => (S_OK, some (.bitwise .u8))
      | _ => (E_FAIL, none)
  else CompileBooleanConditional t1 t2

/-- `BinaryExpressionEvaluator::CompileShift`.  The first guard rejects only
when BOTH operand kinds are non-integral; the final `default` branch of the
`switch` executes `return false`, which converts to the `HRESULT` `0`
(`S_OK`) — reproduced literally here. -/
def CompileShift (t1 t2 : CorElementType) : Int × Option Computer :=
  if ¬IsIntegralType t1 ∧ ¬IsIntegralType t2 then (E_FAIL, none)
  else if ¬IsNumericallyPromotedToInt t2 ∧ t2 ≠ .I4 then (E_FAIL, none)
  else
    let t1' := if IsNumericallyPromotedToInt t1 then CorElementType.I4 else t1
    match t1' with
    | .I4 => (S_OK, some (.shift .i4 0x1f))
    | .U4 => (S_OK, some (.shift .u4 0x1f))
    | .I8 => (S_OK, some (.shift .i8 0x3f))
    | .U8 => (S_OK, some (.shift .u8 0x3f))
    | _ => ((0 : Int), none)

/-- `BinaryExpressionEvaluator::Compile`, after both children compiled: the
operator-category dispatch of the `switch` on `type_`. -/
def Compile (ty : BinOp) (t1 t2 : CorElementType) : Int × Option Computer :=
  match ty with
  | .add | .sub | .mul | .div | .mod => CompileArithmetical t1 t2
  | .eq | .ne | .le | .ge | .lt | .gt => CompileRelational ty t1 t2
  | .conditional_and | .conditional_or => CompileBooleanConditional t1 t2
  | .bitwise_and | .bitwise_or | .bitwise_xor => CompileLogical t1 t2
  | .shl | .shr_s | .shr_u => CompileShift t1 t2

/-- `BinaryExpressionEvaluator::Evaluate`, with the two child evaluations
abstracted by their outcomes `r1`, `r2`.  The boolean of the result records
whether the second operand was evaluated (false on every early return). -/
def Evaluate (ty : BinOp) (comp : Computer) (r1 r2 : Except Int Value) :
    Except Int Value × Bool :=
  match r1 with
  | .error hr => (.error hr, false)
  | .ok arg1_obj =>
    if ty = .conditional_and then
      match ExtractBool arg1_obj with
      | .error hr => (.error hr, false)
      | .ok boolean1 =>
        if !boolean1 then (.ok (.vBool false), false)
        else
          match r2 with
          | .error hr => (.error hr, true)
          | .ok arg2_obj => (ApplyComputer ty comp arg1_obj arg2_obj, true)
    else if ty = .conditional_or then
      match ExtractBool arg1_obj with
      | .error hr => (.error hr, false)
      | .ok boolean1 =>
        if boolean1 then (.ok (.vBool true), false)
        else
          match r2 with
          | .error hr => (.error hr, true)
          | .ok arg2_obj => (ApplyComputer ty comp arg1_obj arg2_obj, true)
    else
      match r2 with
      | .error hr => (.error hr, true)
      | .ok arg2_obj => (ApplyComputer ty comp arg1_obj arg2_obj, true)

/-- Modelled from the spec: the `EvalCoordinator` state (its implementation is
not among the excerpted sources; only the `IEvalCoordinator` interface of
`i_evalcoordinator.h` is).  §3/§4.4: one in-flight evaluation at most,
tracked by a pending flag with a single result slot — no request queue. -/
structure EvalCoordinator where
  waitingForEval : Bool
  resultSlot : Option Value
  deriving DecidableEq

/-- Modelled from the spec: the failure a coordinator-protocol violation
produces (§7 `CoordinatorBusy`). -/
inductive CoordinatorError
  | busy
  deriving DecidableEq, Repr

/-- Modelled from the spec: `IEvalCoordinator::WaitForEval` (§4.4/§5): a call
while an evaluation is already pending fails fast with the busy error and
leaves the state untouched (nothing is queued); otherwise it records the
pending evaluation. -/
def WaitForEval (s : EvalCoordinator) : Option CoordinatorError × EvalCoordinator :=
  if s.waitingForEval then (some .busy, s)
  else (none, { s with waitingForEval := true, resultSlot := none })

/-- Modelled from the spec: `IEvalCoordinator::SignalFinishedEval` (§4.4):
delivers the completed value into the result slot and clears the pending
flag, waking the blocked waiter. -/
def SignalFinishedEval (s : EvalCoordinator) (v : Value) : EvalCoordinator :=
  { s with waitingForEval := false, resultSlot := some v }

deriving instance DecidableEq for Except

theorem exceptBind_ok {α β : Type} (a : α) (f : α → Except Int β) :
    (Except.ok a >>= f) = f a := rfl

theorem exceptBind_err {α β : Type} (hr : Int) (f : α → Except Int β) :
    ((Except.error hr : Except Int α) >>= f) = Except.error hr := rfl

theorem arith_i4_div_eq (v1 v2 : Int) :
    ArithmeticComputer .div .i4 (.vI4 v1) (.vI4 v2) =
      (if v2 == 0 then .error E_INVALIDARG
       else if v1 == INT32_MIN && v2 == -1 then .error E_INVALIDARG
       else .ok (.vI4 (Int.tdiv v1 v2))) := rfl

theorem arith_i4_mod_eq (v1 v2 : Int) :
    ArithmeticComputer .mod .i4 (.vI4 v1) (.vI4 v2) =
      (if v2 == 0 then .error E_INVALIDARG
       else if v1 == INT32_MIN && v2 == -1 then .error E_INVALIDARG
       else .ok (.vI4 (ComputeModuloInt v1 v2))) := rfl

theorem arith_i8_div_eq (v1 v2 : Int) :
    ArithmeticComputer .div .i8 (.vI8 v1) (.vI8 v2) =
      (if v2 == 0 then .error E_INVALIDARG
       else if v1 == INT64_MIN && v2 == -1 then .error E_INVALIDARG
       else .ok (.vI8 (Int.tdiv v1 v2))) := rfl

theorem arith_i8_mod_eq (v1 v2 : Int) :
    ArithmeticComputer .mod .i8 (.vI8 v1) (.vI8 v2) =
      (if v2 == 0 then .error E_INVALIDARG
       else if v1 == INT64_MIN && v2 == -1 then .error E_INVALIDARG
       else .ok (.vI8 (ComputeModuloInt v1 v2))) := rfl

theorem arith_u4_div_eq (v1 v2 : Nat) :
    ArithmeticComputer .div .u4 (.vU4 v1) (.vU4 v2) =
      (if v2 == 0 then .error E_INVALIDARG else .ok (.vU4 (v1 / v2))) := rfl

theorem arith_u4_mod_eq (v1 v2 : Nat) :
    ArithmeticComputer .mod .u4 (.vU4 v1) (.vU4 v2) =
      (if v2 == 0 then .error E_INVALIDARG else .ok (.vU4 (v1 % v2))) := rfl

theorem arith_u8_div_eq (v1 v2 : Nat) :
    ArithmeticComputer .div .u8 (.vU8 v1) (.vU8 v2) =
      (if v2 == 0 then .error E_INVALIDARG else .ok (.vU8 (v1 / v2))) := rfl

theorem arith_u8_mod_eq (v1 v2 : Nat) :
    ArithmeticComputer .mod .u8 (.vU8 v1) (.vU8 v2) =
      (if v2 == 0 then .error E_INVALIDARG else .ok (.vU8 (v1 % v2))) := rfl

theorem arith_r4_div_eq (v1 v2 : FloatVal) :
    ArithmeticComputer .div .r4 (.vR4 v1) (.vR4 v2) = .ok (.vR4 (FloatVal.div v1 v2)) := rfl

theorem arith_r4_mod_eq (v1 v2 : FloatVal) :
    ArithmeticComputer .mod .r4 (.vR4 v1) (.vR4 v2) = .ok (.vR4 (FloatVal.fmod v1 v2)) := rfl

theorem arith_r8_div_eq (v1 v2 : FloatVal) :
    ArithmeticComputer .div .r8 (.vR8 v1) (.vR8 v2) = .ok (.vR8 (FloatVal.div v1 v2)) := rfl

theorem arith_r8_mod_eq (v1 v2 : FloatVal) :
    ArithmeticComputer .mod .r8 (.vR8 v1) (.vR8 v2) = .ok (.vR8 (FloatVal.fmod v1 v2)) := rfl

theorem arith_i4_add_eq (v1 v2 : Int) :
    ArithmeticComputer .add .i4 (.vI4 v1) (.vI4 v2) = .ok (.vI4 (wrap32 (v1 + v2))) := rfl

theorem arith_i4_sub_eq (v1 v2 : Int) :
    ArithmeticComputer .sub .i4 (.vI4 v1) (.vI4 v2) = .ok (.vI4 (wrap32 (v1 - v2))) := rfl

theorem arith_i4_mul_eq (v1 v2 : Int) :
    ArithmeticComputer .mul .i4 (.vI4 v1) (.vI4 v2) = .ok (.vI4 (wrap32 (v1 * v2))) := rfl

theorem arith_i8_add_eq (v1 v2 : Int) :
    ArithmeticComputer .add .i8 (.vI8 v1) (.vI8 v2) = .ok (.vI8 (wrap64 (v1 + v2))) := rfl

theorem arith_i8_sub_eq (v1 v2 : Int) :
    ArithmeticComputer .sub .i8 (.vI8 v1) (.vI8 v2) = .ok (.vI8 (wrap64 (v1 - v2))) := rfl

theorem arith_i8_mul_eq (v1 v2 : Int) :
    ArithmeticComputer .mul .i8 (.vI8 v1) (.vI8 v2) = .ok (.vI8 (wrap64 (v1 * v2))) := rfl

theorem arith_u4_add_eq (v1 v2 : Nat) :
    ArithmeticComputer .add .u4 (.vU4 v1) (.vU4 v2) = .ok (.vU4 ((v1 + v2) % 4294967296)) := rfl

theorem arith_u4_sub_eq (v1 v2 : Nat) :
    ArithmeticComputer .sub .u4 (.vU4 v1) (.vU4 v2) =
      .ok (.vU4 (wrapU32 ((v1 : Int) - (v2 : Int)))) := rfl

theorem arith_u4_mul_eq (v1 v2 : Nat) :
    ArithmeticComputer .mul .u4 (.vU4 v1) (.vU4 v2) = .ok (.vU4 ((v1 * v2) % 4294967296)) := rfl

theorem arith_u8_add_eq (v1 v2 : Nat) :
    ArithmeticComputer .add .u8 (.vU8 v1) (.vU8 v2) =
      .ok (.vU8 ((v1 + v2) % 18446744073709551616)) := rfl

theorem arith_u8_sub_eq (v1 v2 : Nat) :
    ArithmeticComputer .sub .u8 (.vU8 v1) (.vU8 v2) =
      .ok (.vU8 (wrapU64 ((v1 : Int) - (v2 : Int)))) := rfl

theorem arith_u8_mul_eq (v1 v2 : Nat) :
    ArithmeticComputer .mul .u8 (.vU8 v1) (.vU8 v2) =
      .ok (.vU8 ((v1 * v2) % 18446744073709551616)) := rfl

theorem shift_i4_shl_eq (v c : Int) :
    ShiftComputer .shl .i4 0x1f (.vI4 v) (.vI4 c) =
      .ok (.vI4 (wrap32 (v * 2 ^ (c % 32).toNat))) := rfl

theorem shift_i4_shr_s_eq (v c : Int) :
    ShiftComputer .shr_s .i4 0x1f (.vI4 v) (.vI4 c) =
      .ok (.vI4 (Int.fdiv v (2 ^ (c % 32).toNat))) := rfl

theorem shift_i4_shr_u_eq (v c : Int) :
    ShiftComputer .shr_u .i4 0x1f (.vI4 v) (.vI4 c) =
      .ok (.vI4 (Int.fdiv v (2 ^ (c % 32).toNat))) := rfl

theorem shift_u4_shl_eq (v : Nat) (c : Int) :
    ShiftComputer .shl .u4 0x1f (.vU4 v) (.vI4 c) =
      .ok (.vU4 ((v * 2 ^ (c % 32).toNat) % 4294967296)) := rfl

theorem shift_u4_shr_s_eq (v : Nat) (c : Int) :
    ShiftComputer .shr_s .u4 0x1f (.vU4 v) (.vI4 c) =
      .ok (.vU4 (v / 2 ^ (c % 32).toNat)) := rfl

theorem shift_u4_shr_u_eq (v : Nat) (c : Int) :
    ShiftComputer .shr_u .u4 0x1f (.vU4 v) (.vI4 c) =
      .ok (.vU4 (v / 2 ^ (c % 32).toNat)) := rfl

theorem shift_i8_shl_eq (v c : Int) :
    ShiftComputer .shl .i8 0x3f (.vI8 v) (.vI4 c) =
      .ok (.vI8 (wrap64 (v * 2 ^ (c % 64).toNat))) := rfl

theorem shift_i8_shr_s_eq (v c : Int) :
    ShiftComputer .shr_s .i8 0x3f (.vI8 v) (.vI4 c) =
      .ok (.vI8 (Int.fdiv v (2 ^ (c % 64).toNat))) := rfl

theorem shift_i8_shr_u_eq (v c : Int) :
    ShiftComputer .shr_u .i8 0x3f (.vI8 v) (.vI4 c) =
      .ok (.vI8 (Int.fdiv v (2 ^ (c % 64).toNat))) := rfl

theorem shift_u8_shl_eq (v : Nat) (c : Int) :
    ShiftComputer .shl .u8 0x3f (.vU8 v) (.vI4 c) =
      .ok (.vU8 ((v * 2 ^ (c % 64).toNat) % 18446744073709551616)) := rfl

theorem shift_u8_shr_s_eq (v : Nat) (c : Int) :
    ShiftComputer .shr_s .u8 0x3f (.vU8 v) (.vI4 c) =
      .ok (.vU8 (v / 2 ^ (c % 64).toNat)) := rfl

theorem shift_u8_shr_u_eq (v : Nat) (c : Int) :
    ShiftComputer .shr_u .u8 0x3f (.vU8 v) (.vI4 c) =
      .ok (.vU8 (v / 2 ^ (c % 64).toNat)) := rfl

theorem wrap32_spec (x : Int) :
    (wrap32 x) % 4294967296 = x % 4294967296 ∧
      -2147483648 ≤ wrap32 x ∧ wrap32 x < 2147483648 := by
  unfold wrap32
  omega

theorem wrap64_spec (x : Int) :
    (wrap64 x) % 18446744073709551616 = x % 18446744073709551616 ∧
      -9223372036854775808 ≤ wrap64 x ∧ wrap64 x < 9223372036854775808 := by
  unfold wrap64
  omega

theorem wrapU32_spec (x : Int) :
    ((wrapU32 x : Int)) % 4294967296 = x % 4294967296 ∧ wrapU32 x < 4294967296 := by
  unfold wrapU32
  omega

theorem wrapU64_spec (x : Int) :
    ((wrapU64 x : Int)) % 18446744073709551616 = x % 18446744073709551616 ∧
      wrapU64 x < 18446744073709551616 := by
  unfold wrapU64
  omega

/-- Claim C1: for every `conditional_and`, a left operand evaluating to the
boolean `false` makes `Evaluate` return `false` successfully with the right
operand never evaluated; for `conditional_or` a `true` left operand returns
`true` likewise.  In every other case both operands are evaluated, left
first: a failed left operand returns before the right one is touched, and
for any operator other than the two conditionals — and for the conditionals
when the left operand does not short-circuit — the right operand is
evaluated. -/
theorem evaluate_short_circuits_left_first (comp : Computer) (r2 : Except Int Value) :
    (∀ a1, ExtractBool a1 = .ok false →
      Evaluate .conditional_and comp (.ok a1) r2 = (.ok (.vBool false), false)) ∧
    (∀ a1, ExtractBool a1 = .ok true →
      Evaluate .conditional_or comp (.ok a1) r2 = (.ok (.vBool true), false)) ∧
    (∀ ty hr, Evaluate ty comp (.error hr) r2 = (.error hr, false)) ∧
    (∀ ty a1, ty ≠ .conditional_and → ty ≠ .conditional_or →
      (Evaluate ty comp (.ok a1) r2).2 = true) ∧
    (∀ a1, ExtractBool a1 = .ok true →
      (Evaluate .conditional_and comp (.ok a1) r2).2 = true) ∧
    (∀ a1, ExtractBool a1 = .ok false →
      (Evaluate .conditional_or comp (.ok a1) r2).2 = true) := by
  refine ⟨?_, ?_, ?_, ?_, ?_, ?_⟩
  · intro a1 h
    simp [Evaluate, h]
  · intro a1 h
    simp [Evaluate, h]
  · intro ty hr
    simp [Evaluate]
  · intro ty a1 h1 h2
    cases r2 <;> simp [Evaluate, h1, h2]
  · intro a1 h
    cases r2 <;> simp [Evaluate, h]
  · intro a1 h
    cases r2 <;> simp [Evaluate, h]

/-- Witness for C1 at a concrete input: `false && X` evaluates to `false`
without evaluating `X`. -/
theorem evaluate_short_circuits_left_first_witness :
    Evaluate .conditional_and .condBoolean (.ok (.vBool false)) (.ok (.vBool true)) =
      (.ok (.vBool false), false) :=
  (evaluate_short_circuits_left_first .condBoolean (.ok (.vBool true))).1 (.vBool false) rfl

/-- Claim C7: an ordering operator (`lt`, `le`, `gt`, `ge`) whose operands are
not both numerical compiles to the not-implemented failure (the
expression-not-supported outcome), not to the type-mismatch failure, and no
runtime operation is selected. -/
theorem compileRelational_ordering_nonnumeric_notimpl
    (ty : BinOp) (hty : ty = .lt ∨ ty = .le ∨ ty = .gt ∨ ty = .ge)
    (t1 t2 : CorElementType)
    (h : ¬(IsNumericalType t1 = true ∧ IsNumericalType t2 = true)) :
    CompileRelational ty t1 t2 = (E_NOTIMPL, none) := by
  rcases hty with rfl | rfl | rfl | rfl <;> simp [CompileRelational, h]

/-- Witness for C7 at a concrete input: `lt` on two object operands. -/
theorem compileRelational_ordering_nonnumeric_notimpl_witness :
    CompileRelational .lt .Str .Object = (E_NOTIMPL, none) :=
  compileRelational_ordering_nonnumeric_notimpl .lt (Or.inl rfl) .Str .Object (by decide)

/-- Claim C8: `eq`/`ne` on two strings compares the extracted byte contents:
`eq` is true exactly when the contents are equal (the addresses of the two
instances play no role), `ne` is the inverse, and a failure extracting either
string propagates unchanged as the result. -/
theorem conditionalStringComputer_compares_content :
    (∀ a1 c1 a2 c2,
      ConditionalStringComputer .eq (.vStr a1 c1) (.vStr a2 c2) = .ok (.vBool (c1 == c2)) ∧
      ConditionalStringComputer .ne (.vStr a1 c1) (.vStr a2 c2) = .ok (.vBool (!(c1 == c2)))) ∧
    (∀ ty v1 v2 hr, GetString v1 = .error hr →
      ConditionalStringComputer ty v1 v2 = .error hr) ∧
    (∀ ty v1 v2 s1 hr, GetString v1 = .ok s1 → GetString v2 = .error hr →
      ConditionalStringComputer ty v1 v2 = .error hr) := by
  refine ⟨?_, ?_, ?_⟩
  · intro a1 c1 a2 c2
    exact ⟨rfl, rfl⟩
  · intro ty v1 v2 hr h
    unfold ConditionalStringComputer
    rw [h, exceptBind_err]
  · intro ty v1 v2 s1 hr h1 h2
    unfold ConditionalStringComputer
    rw [h1, exceptBind_ok, h2, exceptBind_err]

/-- Witness for C8 at a concrete input: two distinct string instances with
equal content compare `eq == true`. -/
theorem conditionalStringComputer_compares_content_witness :
    ConditionalStringComputer .eq (.vStr 1 [97, 98, 99]) (.vStr 2 [97, 98, 99]) =
      .ok (.vBool true) := by
  have h := (conditionalStringComputer_compares_content.1 1 [97, 98, 99] 2 [97, 98, 99]).1
  simpa using h

/-- Claim C9 (spec-modelled): at most one evaluation is in flight per
coordinator: a `WaitForEval` issued while one is already pending fails
immediately with the busy error and leaves the coordinator state exactly as
it was (nothing blocks, nothing is queued); after a successful first request
the pending flag is set, so a second request fails busy. -/
theorem waitForEval_second_request_busy (s : EvalCoordinator) :
    (s.waitingForEval = true → WaitForEval s = (some .busy, s)) ∧
    (s.waitingForEval = false →
      (WaitForEval s).1 = none ∧
      WaitForEval (WaitForEval s).2 = (some .busy, (WaitForEval s).2)) := by
  constructor
  · intro h
    simp [WaitForEval, h]
  · intro h
    simp [WaitForEval, h]

/-- Witness for C9 at a concrete state: a coordinator with a pending
evaluation reports busy and is unchanged. -/
theorem waitForEval_second_request_busy_witness :
    WaitForEval { waitingForEval := true, resultSlot := none } =
      (some .busy, { waitingForEval := true, resultSlot := none }) :=
  (waitForEval_second_request_busy { waitingForEval := true, resultSlot := none }).1 rfl

/-- Claim C2: for `div`/`mod` at an integral working kind, a zero divisor —
or, at a signed kind, the minimum value divided by `-1` — makes the computer
fail with the invalid-argument error and produce no result, and these are the
only failures once both operands extract; at the float kinds both checks
never fire and division/modulo always succeeds (division of `1.0` by `0.0`
yields positive infinity); at the unsigned kinds the overflow check never
fires. -/
theorem arithmeticComputer_div_mod_checks (ty : BinOp) (hty : ty = .div ∨ ty = .mod) :
    (∀ v1 v2 : Int,
      ((v2 = 0 ∨ (v1 = INT32_MIN ∧ v2 = -1)) →
        ArithmeticComputer ty .i4 (.vI4 v1) (.vI4 v2) = .error E_INVALIDARG) ∧
      (¬(v2 = 0 ∨ (v1 = INT32_MIN ∧ v2 = -1)) →
        ∃ w, ArithmeticComputer ty .i4 (.vI4 v1) (.vI4 v2) = .ok w)) ∧
    (∀ v1 v2 : Int,
      ((v2 = 0 ∨ (v1 = INT64_MIN ∧ v2 = -1)) →
        ArithmeticComputer ty .i8 (.vI8 v1) (.vI8 v2) = .error E_INVALIDARG) ∧
      (¬(v2 = 0 ∨ (v1 = INT64_MIN ∧ v2 = -1)) →
        ∃ w, ArithmeticComputer ty .i8 (.vI8 v1) (.vI8 v2) = .ok w)) ∧
    (∀ v1 v2 : Nat,
      IsDivisionOverflowNat v1 v2 = false ∧
      (v2 = 0 → ArithmeticComputer ty .u4 (.vU4 v1) (.vU4 v2) = .error E_INVALIDARG) ∧
      (v2 ≠ 0 → ∃ w, ArithmeticComputer ty .u4 (.vU4 v1) (.vU4 v2) = .ok w)) ∧
    (∀ v1 v2 : Nat,
      IsDivisionOverflowNat v1 v2 = false ∧
      (v2 = 0 → ArithmeticComputer ty .u8 (.vU8 v1) (.vU8 v2) = .error E_INVALIDARG) ∧
      (v2 ≠ 0 → ∃ w, ArithmeticComputer ty .u8 (.vU8 v1) (.vU8 v2) = .ok w)) ∧
    (∀ v1 v2 : FloatVal,
      IsDivisionByZeroFloat v2 = false ∧ IsDivisionOverflowFloat v1 v2 = false ∧
      (∃ w, ArithmeticComputer ty .r4 (.vR4 v1) (.vR4 v2) = .ok w) ∧
      (∃ w, ArithmeticComputer ty .r8 (.vR8 v1) (.vR8 v2) = .ok w)) ∧
    ArithmeticComputer .div .r8 (.vR8 (.finite 1)) (.vR8 (.finite 0)) = .ok (.vR8 .posInf) := by
  rcases hty with rfl | rfl
  · refine ⟨?_, ?_, ?_, ?_, ?_, by decide⟩
    · intro v1 v2
      simp only [arith_i4_div_eq, beq_iff_eq, Bool.and_eq_true, INT32_MIN]
      constructor
      · intro h
        split_ifs with h1 h2
        · rfl
        · rfl
        · exfalso
          omega
      · intro h
        split_ifs with h1 h2
        · exact absurd (Or.inl h1) h
        · exact absurd (Or.inr h2) h
        · exact ⟨_, rfl⟩
    · intro v1 v2
      simp only [arith_i8_div_eq, beq_iff_eq, Bool.and_eq_true, INT64_MIN]
      constructor
      · intro h
        split_ifs with h1 h2
        · rfl
        · rfl
        · exfalso
          omega
      · intro h
        split_ifs with h1 h2
        · exact absurd (Or.inl h1) h
        · exact absurd (Or.inr h2) h
        · exact ⟨_, rfl⟩
    · intro v1 v2
      refine ⟨rfl, ?_, ?_⟩
      · intro h
        simp [arith_u4_div_eq, h]
      · intro h
        simp only [arith_u4_div_eq, beq_iff_eq]
        rw [if_neg h]
        exact ⟨_, rfl⟩
    · intro v1 v2
      refine ⟨rfl, ?_, ?_⟩
      · intro h
        simp [arith_u8_div_eq, h]
      · intro h
        simp only [arith_u8_div_eq, beq_iff_eq]
        rw [if_neg h]
        exact ⟨_, rfl⟩
    · intro v1 v2
      exact ⟨rfl, rfl, ⟨_, arith_r4_div_eq v1 v2⟩, ⟨_, arith_r8_div_eq v1 v2⟩⟩
  · refine ⟨?_, ?_, ?_, ?_, ?_, by decide⟩
    · intro v1 v2
      simp only [arith_i4_mod_eq, beq_iff_eq, Bool.and_eq_true, INT32_MIN]
      constructor
      · intro h
        split_ifs with h1 h2
        · rfl
        · rfl
        · exfalso
          omega
      · intro h
        split_ifs with h1 h2
        · exact absurd (Or.inl h1) h
        · exact absurd (Or.inr h2) h
        · exact ⟨_, rfl⟩
    · intro v1 v2
      simp only [arith_i8_mod_eq, beq_iff_eq, Bool.and_eq_true, INT64_MIN]
      constructor
      · intro h
        split_ifs with h1 h2
        · rfl
        · rfl
        · exfalso
          omega
      · intro h
        split_ifs with h1 h2
        · exact absurd (Or.inl h1) h
        · exact absurd (Or.inr h2) h
        · exact ⟨_, rfl⟩
    · intro v1 v2
      refine ⟨rfl, ?_, ?_⟩
      · intro h
        simp [arith_u4_mod_eq, h]
      · intro h
        simp only [arith_u4_mod_eq, beq_iff_eq]
        rw [if_neg h]
        exact ⟨_, rfl⟩
    · intro v1 v2
      refine ⟨rfl, ?_, ?_⟩
      · intro h
        simp [arith_u8_mod_eq, h]
      · intro h
        simp only [arith_u8_mod_eq, beq_iff_eq]
        rw [if_neg h]
        exact ⟨_, rfl⟩
    · intro v1 v2
      exact ⟨rfl, rfl, ⟨_, arith_r4_mod_eq v1 v2⟩, ⟨_, arith_r8_mod_eq v1 v2⟩⟩

/-- Witness for C2 at a concrete input: `5 / 0` at int32 fails invalid-argument. -/
theorem arithmeticComputer_div_mod_checks_witness :
    ArithmeticComputer .div .i4 (.vI4 5) (.vI4 0) = .error E_INVALIDARG :=
  ((arithmeticComputer_div_mod_checks .div (Or.inl rfl)).1 5 0).1 (Or.inl rfl)

/-- The exact, unbounded integer result of `add`/`sub`/`mul` (zero for any
other operator); used to state that the computed machine result is the exact
result reduced modulo `2^w`. -/
def exactIntOp : BinOp → Int → Int → Int
  | .add, x, y => x + y
  | .sub, x, y => x - y
  | .mul, x, y => x * y
  | _, _, _ => 0

/-- Claim C10: at every integral working kind, `add`, `sub` and `mul` always
succeed once both operands extract (there is no error branch): the result is
the exact sum, difference or product reduced into the kind's `2^w` range
(two's complement for the signed kinds).  Among the arithmetic operators only
`div` and `mod` can reject extracted inputs. -/
theorem arithmeticComputer_add_sub_mul_total (ty : BinOp)
    (hty : ty = .add ∨ ty = .sub ∨ ty = .mul) :
    (∀ v1 v2 : Int, ∃ r : Int,
      ArithmeticComputer ty .i4 (.vI4 v1) (.vI4 v2) = .ok (.vI4 r) ∧
      r % 4294967296 = exactIntOp ty v1 v2 % 4294967296 ∧
      -2147483648 ≤ r ∧ r < 2147483648) ∧
    (∀ v1 v2 : Int, ∃ r : Int,
      ArithmeticComputer ty .i8 (.vI8 v1) (.vI8 v2) = .ok (.vI8 r) ∧
      r % 18446744073709551616 = exactIntOp ty v1 v2 % 18446744073709551616 ∧
      -9223372036854775808 ≤ r ∧ r < 9223372036854775808) ∧
    (∀ v1 v2 : Nat, ∃ r : Nat,
      ArithmeticComputer ty .u4 (.vU4 v1) (.vU4 v2) = .ok (.vU4 r) ∧
      (r : Int) % 4294967296 = exactIntOp ty (v1 : Int) (v2 : Int) % 4294967296 ∧
      r < 4294967296) ∧
    (∀ v1 v2 : Nat, ∃ r : Nat,
      ArithmeticComputer ty .u8 (.vU8 v1) (.vU8 v2) = .ok (.vU8 r) ∧
      (r : Int) % 18446744073709551616 = exactIntOp ty (v1 : Int) (v2 : Int) % 18446744073709551616 ∧
      r < 18446744073709551616) := by
  rcases hty with rfl | rfl | rfl
  · refine ⟨?_, ?_, ?_, ?_⟩
    · intro v1 v2
      exact ⟨_, arith_i4_add_eq v1 v2, (wrap32_spec (v1 + v2)).1,
        (wrap32_spec (v1 + v2)).2.1, (wrap32_spec (v1 + v2)).2.2⟩
    · intro v1 v2
      exact ⟨_, arith_i8_add_eq v1 v2, (wrap64_spec (v1 + v2)).1,
        (wrap64_spec (v1 + v2)).2.1, (wrap64_spec (v1 + v2)).2.2⟩
    · intro v1 v2
      refine ⟨_, arith_u4_add_eq v1 v2, ?_, ?_⟩
      · show (((v1 + v2) % 4294967296 : Nat) : Int) % 4294967296 =
          ((v1 : Int) + (v2 : Int)) % 4294967296
        omega
      · omega
    · intro v1 v2
      refine ⟨_, arith_u8_add_eq v1 v2, ?_, ?_⟩
      · show (((v1 + v2) % 18446744073709551616 : Nat) : Int) % 18446744073709551616 =
          ((v1 : Int) + (v2 : Int)) % 18446744073709551616
        omega
      · omega
  · refine ⟨?_, ?_, ?_, ?_⟩
    · intro v1 v2
      exact ⟨_, arith_i4_sub_eq v1 v2, (wrap32_spec (v1 - v2)).1,
        (wrap32_spec (v1 - v2)).2.1, (wrap32_spec (v1 - v2)).2.2⟩
    · intro v1 v2
      exact ⟨_, arith_i8_sub_eq v1 v2, (wrap64_spec (v1 - v2)).1,
        (wrap64_spec (v1 - v2)).2.1, (wrap64_spec (v1 - v2)).2.2⟩
    · intro v1 v2
      refine ⟨_, arith_u4_sub_eq v1 v2, ?_, ?_⟩
      · exact (wrapU32_spec ((v1 : Int) - (v2 : Int))).1
      · exact (wrapU32_spec ((v1 : Int) - (v2 : Int))).2
    · intro v1 v2
      refine ⟨_, arith_u8_sub_eq v1 v2, ?_, ?_⟩
      · exact (wrapU64_spec ((v1 : Int) - (v2 : Int))).1
      · exact (wrapU64_spec ((v1 : Int) - (v2 : Int))).2
  · refine ⟨?_, ?_, ?_, ?_⟩
    · intro v1 v2
      exact ⟨_, arith_i4_mul_eq v1 v2, (wrap32_spec (v1 * v2)).1,
        (wrap32_spec (v1 * v2)).2.1, (wrap32_spec (v1 * v2)).2.2⟩
    · intro v1 v2
      exact ⟨_, arith_i8_mul_eq v1 v2, (wrap64_spec (v1 * v2)).1,
        (wrap64_spec (v1 * v2)).2.1, (wrap64_spec (v1 * v2)).2.2⟩
    · intro v1 v2
      refine ⟨_, arith_u4_mul_eq v1 v2, ?_, ?_⟩
      · show (((v1 * v2) % 4294967296 : Nat) : Int) % 4294967296 =
          ((v1 : Int) * (v2 : Int)) % 4294967296
        push_cast
        generalize (v1 : Int) * (v2 : Int) = x
        omega
      · omega
    · intro v1 v2
      refine ⟨_, arith_u8_mul_eq v1 v2, ?_, ?_⟩
      · show (((v1 * v2) % 18446744073709551616 : Nat) : Int) % 18446744073709551616 =
          ((v1 : Int) * (v2 : Int)) % 18446744073709551616
        push_cast
        generalize (v1 : Int) * (v2 : Int) = x
        omega
      · omega

/-- Witness for C10 at a concrete input: `2 + 3` at int32 succeeds. -/
theorem arithmeticComputer_add_sub_mul_total_witness :
    ∃ r : Int, ArithmeticComputer .add .i4 (.vI4 2) (.vI4 3) = .ok (.vI4 r) ∧
      r % 4294967296 = exactIntOp .add 2 3 % 4294967296 ∧
      -2147483648 ≤ r ∧ r < 2147483648 :=
  (arithmeticComputer_add_sub_mul_total .add (Or.inl rfl)).1 2 3

/-- Claim C3 (refuting): the claim says relational compilation promotes the
first operand's kind with the second's, so `uint32` compared with `int64`
would compare at `int64`.  The source instead promotes `signature1` with
`signature1`: the promotion of the two kinds is `int64`, yet the selected
comparison works at `uint32`. -/
theorem compileRelational_promotes_first_kind_with_itself :
    BinaryNumericalPromotion .U4 .I8 = some .I8 ∧
    CompileRelational .eq .U4 .I8 = (S_OK, some (.numCompare .u4)) ∧
    CompileRelational .lt .U4 .I8 = (S_OK, some (.numCompare .u4)) := by decide

/-- Claim C4: the extracted int32 shift count is masked — reduced onto its
low-order five bits (`& 0x1F`, i.e. modulo 32) for the 32-bit working kinds
and its low-order six bits (`& 0x3F`, i.e. modulo 64) for the 64-bit working
kinds, the mask being fixed by `CompileShift`.  Hence `shl(1:int32, 33)`
equals `shl(1:int32, 1)`, `shl(1:int64, 65)` equals `shl(1:int64, 1)`, and an
over-wide or negative count is never an error. -/
theorem shiftComputer_masks_count (ty : BinOp)
    (hty : ty = .shl ∨ ty = .shr_s ∨ ty = .shr_u) :
    (CompileShift .I4 .I4 = (S_OK, some (.shift .i4 0x1f)) ∧
     CompileShift .U4 .I4 = (S_OK, some (.shift .u4 0x1f)) ∧
     CompileShift .I8 .I4 = (S_OK, some (.shift .i8 0x3f)) ∧
     CompileShift .U8 .I4 = (S_OK, some (.shift .u8 0x3f))) ∧
    (∀ (v c : Int),
      ShiftComputer ty .i4 0x1f (.vI4 v) (.vI4 c) =
        ShiftComputer ty .i4 0x1f (.vI4 v) (.vI4 (c % 32)) ∧
      ∃ w, ShiftComputer ty .i4 0x1f (.vI4 v) (.vI4 c) = .ok w) ∧
    (∀ (v : Nat) (c : Int),
      ShiftComputer ty .u4 0x1f (.vU4 v) (.vI4 c) =
        ShiftComputer ty .u4 0x1f (.vU4 v) (.vI4 (c % 32)) ∧
      ∃ w, ShiftComputer ty .u4 0x1f (.vU4 v) (.vI4 c) = .ok w) ∧
    (∀ (v c : Int),
      ShiftComputer ty .i8 0x3f (.vI8 v) (.vI4 c) =
        ShiftComputer ty .i8 0x3f (.vI8 v) (.vI4 (c % 64)) ∧
      ∃ w, ShiftComputer ty .i8 0x3f (.vI8 v) (.vI4 c) = .ok w) ∧
    (∀ (v : Nat) (c : Int),
      ShiftComputer ty .u8 0x3f (.vU8 v) (.vI4 c) =
        ShiftComputer ty .u8 0x3f (.vU8 v) (.vI4 (c % 64)) ∧
      ∃ w, ShiftComputer ty .u8 0x3f (.vU8 v) (.vI4 c) = .ok w) ∧
    (ShiftComputer .shl .i4 0x1f (.vI4 1) (.vI4 33) =
      ShiftComputer .shl .i4 0x1f (.vI4 1) (.vI4 1) ∧
     ShiftComputer .shl .i8 0x3f (.vI8 1) (.vI4 65) =
      ShiftComputer .shl .i8 0x3f (.vI8 1) (.vI4 1)) := by
  have h32 : ∀ c : Int, c % 32 % 32 = c % 32 := by omega
  have h64 : ∀ c : Int, c % 64 % 64 = c % 64 := by omega
  refine ⟨by decide, ?_, ?_, ?_, ?_, by decide, by decide⟩ <;>
    rcases hty with rfl | rfl | rfl
  · intro v c
    rw [shift_i4_shl_eq, shift_i4_shl_eq, h32]
    exact ⟨rfl, _, shift_i4_shl_eq v c⟩
  · intro v c
    rw [shift_i4_shr_s_eq, shift_i4_shr_s_eq, h32]
    exact ⟨rfl, _, shift_i4_shr_s_eq v c⟩
  · intro v c
    rw [shift_i4_shr_u_eq, shift_i4_shr_u_eq, h32]
    exact ⟨rfl, _, shift_i4_shr_u_eq v c⟩
  · intro v c
    rw [shift_u4_shl_eq, shift_u4_shl_eq, h32]
    exact ⟨rfl, _, shift_u4_shl_eq v c⟩
  · intro v c
    rw [shift_u4_shr_s_eq, shift_u4_shr_s_eq, h32]
    exact ⟨rfl, _, shift_u4_shr_s_eq v c⟩
  · intro v c
    rw [shift_u4_shr_u_eq, shift_u4_shr_u_eq, h32]
    exact ⟨rfl, _, shift_u4_shr_u_eq v c⟩
  · intro v c
    rw [shift_i8_shl_eq, shift_i8_shl_eq, h64]
    exact ⟨rfl, _, shift_i8_shl_eq v c⟩
  · intro v c
    rw [shift_i8_shr_s_eq, shift_i8_shr_s_eq, h64]
    exact ⟨rfl, _, shift_i8_shr_s_eq v c⟩
  · intro v c
    rw [shift_i8_shr_u_eq, shift_i8_shr_u_eq, h64]
    exact ⟨rfl, _, shift_i8_shr_u_eq v c⟩
  · intro v c
    rw [shift_u8_shl_eq, shift_u8_shl_eq, h64]
    exact ⟨rfl, _, shift_u8_shl_eq v c⟩
  · intro v c
    rw [shift_u8_shr_s_eq, shift_u8_shr_s_eq, h64]
    exact ⟨rfl, _, shift_u8_shr_s_eq v c⟩
  · intro v c
    rw [shift_u8_shr_u_eq, shift_u8_shr_u_eq, h64]
    exact ⟨rfl, _, shift_u8_shr_u_eq v c⟩

/-- Witness for C4 at a concrete input: a count of 33 at int32 behaves as a
count of 1. -/
theorem shiftComputer_masks_count_witness :
    ShiftComputer .shl .i4 0x1f (.vI4 1) (.vI4 33) =
      ShiftComputer .shl .i4 0x1f (.vI4 1) (.vI4 (33 % 32)) :=
  ((shiftComputer_masks_count .shl (Or.inl rfl)).2.1 1 33).1

/-- Claim C5 (refuting): the claim says `ne` under the reference/address
comparison inverts the identity-equality result.  The source returns
`has_same_address` unchanged on both the `eq` and the `ne` branch: for two
reference values with distinct addresses, `eq` correctly yields `false` but
`ne` also yields `false` where the claim requires `true`. -/
theorem conditionalObjectComputer_ne_not_inverted :
    GetAddress (Value.vObject 1) ≠ GetAddress (Value.vObject 2) ∧
    ConditionalObjectComputer .eq (.vObject 1) (.vObject 2) = .ok (.vBool false) ∧
    ConditionalObjectComputer .ne (.vObject 1) (.vObject 2) = .ok (.vBool false) := by decide

/-- Claim C6 (refuting): the claim says a shift whose left operand is not
integral fails to compile regardless of the right operand's kind.  With a
float32 left operand and an int32 right operand the source reaches the
`switch` default, whose `return false` converts to the `HRESULT` `0`
(`S_OK`): compilation reports success while selecting no runtime operation.
Only when both operands are non-integral does it return a failing status. -/
theorem compileShift_nonintegral_left_reports_success :
    IsIntegralType .R4 = false ∧
    CompileShift .R4 .I4 = (S_OK, none) ∧
    FAILED S_OK = false ∧
    CompileShift .R4 .R4 = (E_FAIL, none) ∧
    FAILED E_FAIL = true := by decide
